import Mathlib

/-!
Verification of the layered fraud-investigation engine
(`investigator_v2.py`, `fraud_db_service.py`) against its natural-language
specification.  All monetary amounts and scores are modelled as exact
rationals (the Python code uses IEEE floats, but every constant appearing in
the rules and thresholds is a short decimal, and no operation below depends
on rounding behaviour at the scale of the claims checked here).
-/

namespace FraudAI

/-! ## Thresholds (module-level constants of `investigator_v2.py`) -/

def GRAY_AREA_MIN : ℚ := 0.20
def GRAY_AREA_MAX : ℚ := 0.80
def HUMAN_REVIEW_MIN : ℚ := 0.40
def HUMAN_REVIEW_MAX : ℚ := 0.60

/-! ## Feature map

`AdvancedFeatureExtractor.extract` produces a Python dict of named features;
downstream layers read it with `f.get(key, 0)`.  We model the feature map as
a structure holding exactly the keys that `LightweightGradientBoostingDetector`
reads; a key the extractor never writes (`transactions_per_day` is written only
by the dead `_extract_velocity_features` path) is simply a field that the
extractor sets to the dict-lookup default 0.
-/

structure Features where
  amount_raw : ℚ
  amount_income_ratio : ℚ
  is_new_account : ℚ
  is_very_new : ℚ
  transactions_per_day : ℚ
  network_risk_score : ℚ
  device_user_count : ℚ
  shared_device : ℚ
  shared_ip : ℚ
  ip_is_sanctioned : ℚ
  ip_is_high_risk : ℚ
  ip_is_tor : ℚ
  ip_anonymity_score : ℚ
  doc_risk : ℚ
  risk_level_high : ℚ
  employment_risk : ℚ
  deriving Repr, DecidableEq

/-! ## Layer 2: `LightweightGradientBoostingDetector`

Each "tree" of `_initialize_trees` is a list of rule scores (each rule returns
a fixed positive value or `0.0`) plus a weight.  `_evaluate_tree` keeps the
strictly positive scores, and returns `0.0` when none fire, otherwise the
maximum fired score times the tree's weight.  `predict` is the `np.mean` of
the five tree evaluations.
-/

def evaluateTree (ruleScores : List ℚ) (weight : ℚ) : ℚ :=
  match (ruleScores.filter (fun s => 0 < s)).max? with
  | none => 0
  | some m => m * weight

def amountRules (f : Features) : List ℚ :=
  [ if f.amount_income_ratio > 15 then 0.9 else 0
  , if f.amount_income_ratio > 10 then 0.7 else 0
  , if f.amount_income_ratio > 5 then 0.5 else 0 ]

def velocityRules (f : Features) : List ℚ :=
  [ if f.is_very_new = 1 ∧ f.amount_raw > 5000 then 0.95 else 0
  , if f.is_new_account = 1 ∧ f.amount_raw > 10000 then 0.85 else 0
  , if f.transactions_per_day > 10 then 0.6 else 0 ]

def networkRules (f : Features) : List ℚ :=
  [ if f.network_risk_score > 0.7 then 0.8 else 0
  , if f.device_user_count > 5 then 0.6 else 0
  , if f.shared_device = 1 ∧ f.shared_ip = 1 then 0.5 else 0 ]

def geoRules (f : Features) : List ℚ :=
  [ if f.ip_is_sanctioned = 1 then 1.0 else 0
  , if f.ip_is_high_risk = 1 ∧ f.ip_is_tor = 1 then 0.8 else 0
  , if f.ip_anonymity_score > 0.5 then 0.6 else 0 ]

def identityRules (f : Features) : List ℚ :=
  [ if f.doc_risk > 0.6 then 0.7 else 0
  , if f.risk_level_high = 1 then 0.5 else 0
  , if f.employment_risk > 0.5 then 0.4 else 0 ]

def treePredictions (f : Features) : List ℚ :=
  [ evaluateTree (amountRules f) 0.25
  , evaluateTree (velocityRules f) 0.20
  , evaluateTree (networkRules f) 0.20
  , evaluateTree (geoRules f) 0.20
  , evaluateTree (identityRules f) 0.15 ]

def predict (f : Features) : ℚ :=
  (treePredictions f).sum / (treePredictions f).length

/-! ## Layer 5 parsed result

The value `json.loads` produces in `LLMFraudReasoning._llm_inference` is an
arbitrary JSON object; `investigate` reads it with
`llm_result.get("recommendation", "HUMAN_REVIEW")` and
`llm_result.get("confidence", combined_score)`, so each key may be absent.
-/

structure LLMResult where
  recommendation : Option String
  reasoning : Option String
  confidence : Option ℚ
  deriving Repr, DecidableEq

/-! ## Orchestrator: `FraudDetectionSystem.investigate`

The decision logic of `investigate` as a function of the layer outputs:
`ml` is `layer2_ml.predict(features)`, `ring` and `anomaly` are what
`layer3_graph.analyze` / `layer4_anomaly.detect_anomalies` would return, and
`llm` is the parsed object `layer5_llm.reason` would return.  The three
`run` flags record whether the corresponding layer call is reached on the
control path taken (the two short-circuit returns happen before any of the
three calls); `skippedLayers` is the `details["skipped_layers"]` entry, which
only the short-circuit results carry.
-/

structure InvestigationResult where
  decision : String
  confidence : ℚ
  skippedLayers : List String
  layer3Run : Bool
  layer4Run : Bool
  layer5Run : Bool
  combinedScore : Option ℚ
  deriving Repr, DecidableEq

def investigate (ml ring anomaly : ℚ) (llm : LLMResult) : InvestigationResult :=
  if ml > GRAY_AREA_MAX then
    { decision := "AUTO_BLOCKED", confidence := ml
      skippedLayers := ["layer3", "layer4", "layer5"]
      layer3Run := false, layer4Run := false, layer5Run := false
      combinedScore := none }
  else if ml < GRAY_AREA_MIN then
    { decision := "AUTO_APPROVED", confidence := ml
      skippedLayers := ["layer3", "layer4", "layer5"]
      layer3Run := false, layer4Run := false, layer5Run := false
      combinedScore := none }
  else
    let combined := ml * 0.4 + ring * 0.3 + anomaly * 0.3
    if HUMAN_REVIEW_MIN ≤ combined ∧ combined ≤ HUMAN_REVIEW_MAX then
      { decision := llm.recommendation.getD "HUMAN_REVIEW"
        confidence := llm.confidence.getD combined
        skippedLayers := []
        layer3Run := true, layer4Run := true, layer5Run := true
        combinedScore := some combined }
    else if combined ≥ GRAY_AREA_MAX then
      { decision := "AUTO_BLOCKED", confidence := combined, skippedLayers := []
        layer3Run := true, layer4Run := true, layer5Run := false
        combinedScore := some combined }
    else if combined ≤ GRAY_AREA_MIN then
      { decision := "AUTO_APPROVED", confidence := combined, skippedLayers := []
        layer3Run := true, layer4Run := true, layer5Run := false
        combinedScore := some combined }
    else
      { decision := "HUMAN_REVIEW", confidence := combined, skippedLayers := []
        layer3Run := true, layer4Run := true, layer5Run := false
        combinedScore := some combined }

/-! ## Layer 1: `AdvancedFeatureExtractor.extract`

Projection of the extractor onto the keys of `Features`.  The transaction's
embedded profiles are flattened into a record; wall-clock parsing of
`accountCreatedAt` is abstracted to the resulting age in hours.  The history
replies carry only the fields this projection reads.
-/

structure Transaction where
  amount : ℚ
  declaredMonthlyIncome : ℚ
  accountAgeHours : ℚ
  ipIsVpn : Bool
  ipIsTor : Bool
  ipIsProxy : Bool
  ipIsDatacenter : Bool
  ipIsSanctionedCountry : Bool
  ipIsHighRiskCountry : Bool
  riskLevel : String
  employmentStatus : Option String
  docScore : ℚ
  deriving Repr, DecidableEq

structure DeviceHistory where
  unique_users : ℤ
  deriving Repr, DecidableEq

structure IpHistory where
  unique_users : ℤ
  deriving Repr, DecidableEq

def boolToRat (b : Bool) : ℚ := if b then 1 else 0

/-- Fixed employment-status risk mapping of `_employment_risk_score`
(dict `get` with default 0.5; an absent status also maps to the default). -/
def employmentRiskScore (status : Option String) : ℚ :=
  match status with
  | some "UNEMPLOYED" => 0.7
  | some "STUDENT" => 0.5
  | some "SELF_EMPLOYED" => 0.3
  | some "EMPLOYED" => 0.1
  | some "RETIRED" => 0.2
  | _ => 0.5

def extract (tx : Transaction) (dev : DeviceHistory) (iph : IpHistory) : Features :=
  { amount_raw := tx.amount
    amount_income_ratio := tx.amount / max tx.declaredMonthlyIncome 1
    is_new_account := if tx.accountAgeHours < 24 then 1 else 0
    is_very_new := if tx.accountAgeHours < 1 then 1 else 0
    -- `extract` never writes this key; `predict` reads it with default 0.
    transactions_per_day := 0
    network_risk_score := min ((dev.unique_users + iph.unique_users : ℚ) / 20) 1
    device_user_count := dev.unique_users
    shared_device := if dev.unique_users > 1 then 1 else 0
    shared_ip := if iph.unique_users > 1 then 1 else 0
    ip_is_sanctioned := boolToRat tx.ipIsSanctionedCountry
    ip_is_high_risk := boolToRat tx.ipIsHighRiskCountry
    ip_is_tor := boolToRat tx.ipIsTor
    ip_anonymity_score :=
      (boolToRat tx.ipIsVpn + boolToRat tx.ipIsTor +
        boolToRat tx.ipIsProxy + boolToRat tx.ipIsDatacenter) / 4
    doc_risk := 1 - tx.docScore
    risk_level_high := if tx.riskLevel = "HIGH" then 1 else 0
    employment_risk := employmentRiskScore tx.employmentStatus }

/-! ## `FraudDatabaseService.detect_structuring`

The `transactions` table is modelled as a list of rows carrying the columns
the query touches; `hoursAgo` is the row's age relative to the server-side
`NOW()`.  The SQL counts the user's rows of the last 48 hours with
`amount BETWEEN 9500 AND 9999 AND transaction_type = 'DEPOSIT'`, and the
Python wrapper sets `is_structuring = count >= 3 and 9500 <= current_amount <= 9999`.
-/

structure TxnRow where
  user_id : String
  amount : ℚ
  hoursAgo : ℚ
  transaction_type : String
  deriving Repr, DecidableEq

def structuringRows (table : List TxnRow) (userId : String) : List TxnRow :=
  table.filter (fun t =>
    t.user_id = userId ∧ t.hoursAgo ≤ 48 ∧
    9500 ≤ t.amount ∧ t.amount ≤ 9999 ∧ t.transaction_type = "DEPOSIT")

structure StructuringResult where
  is_structuring : Bool
  similar_transactions_48h : ℕ
  total_amount_48h : ℚ
  deriving Repr, DecidableEq

def detect_structuring (table : List TxnRow) (userId : String)
    (currentAmount : ℚ) : StructuringResult :=
  let rows := structuringRows table userId
  { is_structuring :=
      decide (rows.length ≥ 3) && decide (9500 ≤ currentAmount ∧ currentAmount ≤ 9999)
    similar_transactions_48h := rows.length
    total_amount_48h := (rows.map (·.amount)).sum }

/-! ## Layer 5: `LLMFraudReasoning`

### The result cache

`self.cache` is a plain Python dict keyed by the hex digest of the
canonicalized context; `reason()` returns the cached entry on a hit and
inserts the freshly computed result on a miss, with no eviction of any kind.
We model the dict as an association list and abstract the md5 digest of the
canonical JSON as the context value itself (the digest function is
deterministic, so distinct digests give distinct keys; collisions could only
make the cache smaller).
-/

def reasonCacheStep (cache : List (ℕ × LLMResult)) (contextHash : ℕ)
    (fresh : LLMResult) : List (ℕ × LLMResult) :=
  match cache.lookup contextHash with
  | some _ => cache
  | none => (contextHash, fresh) :: cache

/-- Result cache contents after serving the given sequence of context hashes
(oldest first), starting from an empty cache. -/
def reasonCacheRun (hashes : List ℕ) (fresh : LLMResult) : List (ℕ × LLMResult) :=
  hashes.foldl (fun cache h => reasonCacheStep cache h fresh) []

/-! ### `_llm_inference` and its defensive parse

The transport outcome is either an exception (timeout, connection error, or
any other failure inside the `try` block, `json.loads` errors included) or
the completion text.  The completion is modelled as a list of characters;
`json.loads` is abstracted as a `decode` function returning `none` exactly
when the Python call would raise.  The code's extraction is
`output[output.find("{") : output.rfind("}")+1]` guarded by
`"{" in output and "}" in output`.
-/

def lbrace : Char := '\x7b'
def rbrace : Char := '\x7d'

/-- `str.find`: index of the first occurrence. -/
def findIdx (c : Char) (cs : List Char) : ℕ := cs.indexOf c

/-- `str.rfind`: index of the last occurrence. -/
def rfindIdx (c : Char) (cs : List Char) : ℕ :=
  cs.length - 1 - cs.reverse.indexOf c

/-- The substring `_llm_inference` feeds to `json.loads`:
`output[output.find("{") : output.rfind("}")+1]`, available only when the
completion contains both braces. -/
def extractedJson (output : List Char) : Option (List Char) :=
  if lbrace ∈ output ∧ rbrace ∈ output then
    some ((output.take (rfindIdx rbrace output + 1)).drop (findIdx lbrace output))
  else
    none

def llmFallback : LLMResult :=
  { recommendation := some "HUMAN_REVIEW"
    reasoning := some "LLM analysis failed"
    confidence := some 0.5 }

def llmNoJson : LLMResult :=
  { recommendation := some "HUMAN_REVIEW"
    reasoning := some "Unable to reach definitive conclusion"
    confidence := some 0.5 }

/-- `_llm_inference`: a single attempt (no retry loop exists in the source).
`transport` is the outcome of the completion call; `decode` abstracts
`json.loads` (`none` = raises).  Any exception — transport or decode — lands
in the one `except` clause, which returns `llmFallback`. -/
def llmInference (decode : List Char → Option LLMResult)
    (transport : Except Unit (List Char)) : LLMResult :=
  match transport with
  | .error _ => llmFallback
  | .ok output =>
    match extractedJson output with
    | some jsonStr =>
      match decode jsonStr with
      | some parsed => parsed
      | none => llmFallback
    | none => llmNoJson

/-- Modelled from the spec: "extract the first balanced `{…}` substring".
`takeBalancedFrom d cs` consumes `cs` until brace depth `d` returns to zero,
returning the consumed prefix. -/
def takeBalancedFrom (cs : List Char) (d : ℕ) : Option (List Char) :=
  match cs with
  | [] => none
  | c :: rest =>
    if c = lbrace then (takeBalancedFrom rest (d + 1)).map (c :: ·)
    else if c = rbrace then
      if d = 1 then some [c] else (takeBalancedFrom rest (d - 1)).map (c :: ·)
    else (takeBalancedFrom rest d).map (c :: ·)

/-- Modelled from the spec: the first balanced `{…}` substring of the
completion (the comparison point for the claim about the parse strategy). -/
def firstBalancedSubstring_spec (cs : List Char) : Option (List Char) :=
  match cs with
  | [] => none
  | c :: rest =>
    if c = lbrace then (takeBalancedFrom rest 1).map (c :: ·)
    else firstBalancedSubstring_spec rest

/-! ## Layer 4 sequence buffer and the processed-case ring

`TransformerAnomalyDetector.detect_anomalies` appends the current 6-feature
projection to the user's `deque` and pops the oldest entry whenever the
length exceeds 10.  `PatternDiscoveryEngine.case_history` is a
`deque(maxlen=10000)`: an append to a full deque discards the oldest entry.
Buffers are modelled as lists, oldest first.
-/

def sequenceBufferAppend (buf : List (List ℚ)) (v : List ℚ) : List (List ℚ) :=
  let appended := buf ++ [v]
  if appended.length > 10 then appended.drop 1 else appended

structure ProcessedCase where
  case_id : String
  final_decision : String
  deriving Repr, DecidableEq

def caseHistoryAppend (ring : List ProcessedCase) (c : ProcessedCase) :
    List ProcessedCase :=
  let appended := ring ++ [c]
  if appended.length > 10000 then appended.drop 1 else appended

/-! ## Layer-1 storage failures and the worker loop

`AdvancedFeatureExtractor.extract` awaits its six `FraudDatabaseService`
queries with no `try`/`except`: a storage error raised by any of them
propagates out of `extract`, hence out of `investigate`.  The only handler on
the path is the worker loop's blanket `except`, which logs the error, sleeps
and moves on — no verdict is built and nothing is posted for the case.
Each query outcome is a value or a storage error; the successful values
beyond the device/IP fanouts are irrelevant to the features checked here and
are collapsed to `Unit`.
-/

inductive StorageErr where
  | storage_unavailable : StorageErr
  deriving Repr, DecidableEq

structure DBQueryOutcomes where
  velocity : Except StorageErr Unit
  deviceHistory : Except StorageErr DeviceHistory
  ipHistory : Except StorageErr IpHistory
  escalation : Except StorageErr Unit
  structuring : Except StorageErr Unit
  fraudHistory : Except StorageErr Unit

/-- `extract` with fallible history queries, awaited in source order; the
first storage error aborts the whole extraction. -/
def extractE (tx : Transaction) (q : DBQueryOutcomes) :
    Except StorageErr Features :=
  match q.velocity with
  | .error e => .error e
  | .ok _ =>
    match q.deviceHistory with
    | .error e => .error e
    | .ok dev =>
      match q.ipHistory with
      | .error e => .error e
      | .ok iph =>
        match q.escalation with
        | .error e => .error e
        | .ok _ =>
          match q.structuring with
          | .error e => .error e
          | .ok _ =>
            match q.fraudHistory with
            | .error e => .error e
            | .ok _ => .ok (extract tx dev iph)

/-- One worker iteration for a well-formed stream entry: `investigate` is
awaited inside the loop's `try`; an escaped storage error is caught by the
blanket `except` (log, sleep, continue), so the case yields no result and no
verdict POST. -/
def workerProcessCase (tx : Transaction) (q : DBQueryOutcomes)
    (ring anomaly : ℚ) (llm : LLMResult) : Option InvestigationResult :=
  match extractE tx q with
  | .error _ => none
  | .ok f => some (investigate (predict f) ring anomaly llm)

/-! ## Helper lemmas -/

theorem evaluateTree_eq_max (a b c w : ℚ) (ha : 0 ≤ a) (hb : 0 ≤ b) (hc : 0 ≤ c) :
    evaluateTree [a, b, c] w = max (max a b) c * w := by
  rcases ha.eq_or_lt with rfl | ha' <;> rcases hb.eq_or_lt with rfl | hb' <;>
    rcases hc.eq_or_lt with rfl | hc'
  · simp [evaluateTree, List.filter, List.max?]
  · simp [evaluateTree, List.filter, List.max?, hc', max_eq_right hc'.le]
  · simp [evaluateTree, List.filter, List.max?, hb', max_eq_right hb'.le,
      max_eq_left hb'.le]
  · simp [evaluateTree, List.filter, List.max?, hb', hc', max_eq_right hb'.le]
  · simp [evaluateTree, List.filter, List.max?, ha', max_eq_left ha'.le]
  · simp [evaluateTree, List.filter, List.max?, ha', hc', max_eq_left ha'.le]
  · simp [evaluateTree, List.filter, List.max?, ha', hb',
      max_eq_left (le_max_of_le_left ha'.le)]
  · simp [evaluateTree, List.filter, List.max?, ha', hb', hc']

theorem evaluateTree_le (l : List ℚ) (w cap : ℚ) (h : ∀ s ∈ l, s ≤ cap)
    (hcap : 0 ≤ cap) (hw : 0 ≤ w) : evaluateTree l w ≤ cap * w := by
  unfold evaluateTree
  cases hm : (l.filter (fun s => 0 < s)).max? with
  | none => exact mul_nonneg hcap hw
  | some m =>
    have hmem : m ∈ l.filter (fun s => 0 < s) := List.max?_mem max_choice hm
    exact mul_le_mul_of_nonneg_right (h m (List.mem_of_mem_filter hmem)) hw

/-- The per-group score the spec describes: the maximum matching rule value
in the group (0 when nothing matches, like `_evaluate_tree`'s `0.0` fallback)
times the group's weight. -/
def groupScoreFormula (ruleScores : List ℚ) (weight : ℚ) : ℚ :=
  (ruleScores.foldr max 0) * weight

/-- The arithmetic mean over the five rule groups of
(maximum matching rule value × group weight). -/
def groupMeanFormula (f : Features) : ℚ :=
  (groupScoreFormula (amountRules f) 0.25 + groupScoreFormula (velocityRules f) 0.20 +
    groupScoreFormula (networkRules f) 0.20 + groupScoreFormula (geoRules f) 0.20 +
    groupScoreFormula (identityRules f) 0.15) / 5

theorem evaluateTree_eq_formula (a b c w : ℚ) (ha : 0 ≤ a) (hb : 0 ≤ b)
    (hc : 0 ≤ c) : evaluateTree [a, b, c] w = groupScoreFormula [a, b, c] w := by
  rw [evaluateTree_eq_max a b c w ha hb hc]
  unfold groupScoreFormula
  simp only [List.foldr]
  rw [max_eq_left hc, max_assoc]

theorem amountRules_nonneg (f : Features) : ∀ s ∈ amountRules f, 0 ≤ s := by
  intro s hs
  simp only [amountRules, List.mem_cons, List.not_mem_nil, or_false] at hs
  rcases hs with rfl | rfl | rfl <;> split_ifs <;> norm_num

theorem velocityRules_nonneg (f : Features) : ∀ s ∈ velocityRules f, 0 ≤ s := by
  intro s hs
  simp only [velocityRules, List.mem_cons, List.not_mem_nil, or_false] at hs
  rcases hs with rfl | rfl | rfl <;> split_ifs <;> norm_num

theorem networkRules_nonneg (f : Features) : ∀ s ∈ networkRules f, 0 ≤ s := by
  intro s hs
  simp only [networkRules, List.mem_cons, List.not_mem_nil, or_false] at hs
  rcases hs with rfl | rfl | rfl <;> split_ifs <;> norm_num

theorem geoRules_nonneg (f : Features) : ∀ s ∈ geoRules f, 0 ≤ s := by
  intro s hs
  simp only [geoRules, List.mem_cons, List.not_mem_nil, or_false] at hs
  rcases hs with rfl | rfl | rfl <;> split_ifs <;> norm_num

theorem identityRules_nonneg (f : Features) : ∀ s ∈ identityRules f, 0 ≤ s := by
  intro s hs
  simp only [identityRules, List.mem_cons, List.not_mem_nil, or_false] at hs
  rcases hs with rfl | rfl | rfl <;> split_ifs <;> norm_num

theorem amountRules_le (f : Features) : ∀ s ∈ amountRules f, s ≤ 0.9 := by
  intro s hs
  simp only [amountRules, List.mem_cons, List.not_mem_nil, or_false] at hs
  rcases hs with rfl | rfl | rfl <;> split_ifs <;> norm_num

theorem velocityRules_le (f : Features) : ∀ s ∈ velocityRules f, s ≤ 0.95 := by
  intro s hs
  simp only [velocityRules, List.mem_cons, List.not_mem_nil, or_false] at hs
  rcases hs with rfl | rfl | rfl <;> split_ifs <;> norm_num

theorem networkRules_le (f : Features) : ∀ s ∈ networkRules f, s ≤ 0.8 := by
  intro s hs
  simp only [networkRules, List.mem_cons, List.not_mem_nil, or_false] at hs
  rcases hs with rfl | rfl | rfl <;> split_ifs <;> norm_num

theorem geoRules_le (f : Features) : ∀ s ∈ geoRules f, s ≤ 1 := by
  intro s hs
  simp only [geoRules, List.mem_cons, List.not_mem_nil, or_false] at hs
  rcases hs with rfl | rfl | rfl <;> split_ifs <;> norm_num

theorem identityRules_le (f : Features) : ∀ s ∈ identityRules f, s ≤ 0.7 := by
  intro s hs
  simp only [identityRules, List.mem_cons, List.not_mem_nil, or_false] at hs
  rcases hs with rfl | rfl | rfl <;> split_ifs <;> norm_num

theorem evalTree_amount_eq (f : Features) :
    evaluateTree (amountRules f) 0.25 = groupScoreFormula (amountRules f) 0.25 := by
  simp only [amountRules]
  apply evaluateTree_eq_formula <;> split_ifs <;> norm_num

theorem evalTree_velocity_eq (f : Features) :
    evaluateTree (velocityRules f) 0.20 = groupScoreFormula (velocityRules f) 0.20 := by
  simp only [velocityRules]
  apply evaluateTree_eq_formula <;> split_ifs <;> norm_num

theorem evalTree_network_eq (f : Features) :
    evaluateTree (networkRules f) 0.20 = groupScoreFormula (networkRules f) 0.20 := by
  simp only [networkRules]
  apply evaluateTree_eq_formula <;> split_ifs <;> norm_num

theorem evalTree_geo_eq (f : Features) :
    evaluateTree (geoRules f) 0.20 = groupScoreFormula (geoRules f) 0.20 := by
  simp only [geoRules]
  apply evaluateTree_eq_formula <;> split_ifs <;> norm_num

theorem evalTree_identity_eq (f : Features) :
    evaluateTree (identityRules f) 0.15 = groupScoreFormula (identityRules f) 0.15 := by
  simp only [identityRules]
  apply evaluateTree_eq_formula <;> split_ifs <;> norm_num

theorem predict_eq_groupMean (f : Features) : predict f = groupMeanFormula f := by
  simp only [predict, treePredictions, List.sum_cons, List.sum_nil,
    List.length_cons, List.length_nil, groupMeanFormula,
    evalTree_amount_eq, evalTree_velocity_eq, evalTree_network_eq,
    evalTree_geo_eq, evalTree_identity_eq]
  norm_num
  ring

theorem predict_le (f : Features) : predict f ≤ 0.176 := by
  have h1 := evaluateTree_le _ 0.25 _ (amountRules_le f) (by norm_num) (by norm_num)
  have h2 := evaluateTree_le _ 0.20 _ (velocityRules_le f) (by norm_num) (by norm_num)
  have h3 := evaluateTree_le _ 0.20 _ (networkRules_le f) (by norm_num) (by norm_num)
  have h4 := evaluateTree_le _ 0.20 _ (geoRules_le f) (by norm_num) (by norm_num)
  have h5 := evaluateTree_le _ 0.15 _ (identityRules_le f) (by norm_num) (by norm_num)
  simp only [predict, treePredictions, List.sum_cons, List.sum_nil,
    List.length_cons, List.length_nil]
  rw [div_le_iff₀ (by norm_num)]
  push_cast
  linarith

theorem evaluateTree_nonneg (l : List ℚ) (w : ℚ) (hw : 0 ≤ w) :
    0 ≤ evaluateTree l w := by
  unfold evaluateTree
  cases hm : (l.filter (fun s => 0 < s)).max? with
  | none => exact le_refl 0
  | some m =>
    have hmem : m ∈ l.filter (fun s => 0 < s) := List.max?_mem max_choice hm
    have hpos : 0 < m := by
      have hdec := (List.mem_filter.1 hmem).2
      exact of_decide_eq_true hdec
    exact mul_nonneg hpos.le hw

theorem predict_nonneg (f : Features) : 0 ≤ predict f := by
  have h1 := evaluateTree_nonneg (amountRules f) 0.25 (by norm_num)
  have h2 := evaluateTree_nonneg (velocityRules f) 0.20 (by norm_num)
  have h3 := evaluateTree_nonneg (networkRules f) 0.20 (by norm_num)
  have h4 := evaluateTree_nonneg (geoRules f) 0.20 (by norm_num)
  have h5 := evaluateTree_nonneg (identityRules f) 0.15 (by norm_num)
  simp only [predict, treePredictions, List.sum_cons, List.sum_nil,
    List.length_cons, List.length_nil]
  apply div_nonneg (by linarith) (by norm_num)

/-! ## Concrete inputs used by counterexamples and witnesses -/

/-- A parsed layer-5 object with every key absent. -/
def llm0 : LLMResult := { recommendation := none, reasoning := none, confidence := none }

/-- The literal scenario S2 transaction: amount 200000, declared income 1000,
sanctioned-country IP, Tor IP, 0.5-hour-old account.  Fields S2 leaves
unspecified take the extractor's defaults (absent document profile gives
`doc_score = 0.5`, absent employment status gives the 0.5 default, risk level
not HIGH). -/
def s2tx : Transaction :=
  { amount := 200000, declaredMonthlyIncome := 1000, accountAgeHours := 0.5
    ipIsVpn := false, ipIsTor := true, ipIsProxy := false, ipIsDatacenter := false
    ipIsSanctionedCountry := true, ipIsHighRiskCountry := false
    riskLevel := "LOW", employmentStatus := none, docScore := 0.5 }

/-- S2's feature map: the account is brand new, so its device and IP have no
history rows (zero fanout). -/
def s2Features : Features :=
  extract s2tx { unique_users := 0 } { unique_users := 0 }

/-- A benign transaction used where the claim only concerns error plumbing. -/
def tx0 : Transaction :=
  { amount := 100, declaredMonthlyIncome := 5000, accountAgeHours := 10000
    ipIsVpn := false, ipIsTor := false, ipIsProxy := false, ipIsDatacenter := false
    ipIsSanctionedCountry := false, ipIsHighRiskCountry := false
    riskLevel := "LOW", employmentStatus := some "EMPLOYED", docScore := 0.9 }

/-- Query outcomes where the first layer-1 query (`get_velocity_metrics`)
raises a storage error and every other query would have succeeded. -/
def qVelocityFail : DBQueryOutcomes :=
  { velocity := .error .storage_unavailable
    deviceHistory := .ok { unique_users := 0 }
    ipHistory := .ok { unique_users := 0 }
    escalation := .ok (), structuring := .ok (), fraudHistory := .ok () }

/-- Query outcomes where only the last layer-1 query
(`get_user_fraud_history`) raises a storage error. -/
def qFraudHistoryFail : DBQueryOutcomes :=
  { velocity := .ok ()
    deviceHistory := .ok { unique_users := 0 }
    ipHistory := .ok { unique_users := 0 }
    escalation := .ok (), structuring := .ok ()
    fraudHistory := .error .storage_unavailable }

/-- An LLM completion containing two top-level JSON objects. -/
def dualObjectCompletion : List Char := "{a} {b}".toList

/-- A storage-error outcome (`asyncpg` exception surfaced from the query). -/
def isStorageError {α : Type} (x : Except StorageErr α) : Prop :=
  ∃ e, x = .error e

/-- Folding distinct, previously unseen context hashes through the layer-5
cache grows it by exactly one entry per hash (the dict has no eviction). -/
theorem reasonCache_fold_length (l : List ℕ) (fresh : LLMResult) :
    ∀ init : List (ℕ × LLMResult), l.Nodup →
      (∀ k ∈ l, init.lookup k = none) →
      (l.foldl (fun cache h => reasonCacheStep cache h fresh) init).length =
        init.length + l.length := by
  induction l with
  | nil => intro init _ _; simp
  | cons k rest ih =>
    intro init hnd hfresh
    have hk : init.lookup k = none := hfresh k (List.mem_cons_self k rest)
    have hstep : reasonCacheStep init k fresh = (k, fresh) :: init := by
      simp [reasonCacheStep, hk]
    simp only [List.foldl_cons, hstep]
    rw [ih ((k, fresh) :: init) (List.Nodup.of_cons hnd)]
    · simp only [List.length_cons]
      omega
    · intro k' hk'
      have hne : k' ≠ k := by
        rintro rfl
        exact (List.nodup_cons.1 hnd).1 hk'
      have hbeq : (k' == k) = false := beq_eq_false_iff_ne.2 hne
      simp only [List.lookup, hbeq]
      exact hfresh k' (List.mem_cons_of_mem k hk')

/-- The layer-2 score of scenario S2 is exactly 0.123. -/
theorem s2_ml_score : predict s2Features = 0.123 := by
  have hstr : ¬ (("LOW" : String) = "HIGH") := by decide
  rw [predict_eq_groupMean]
  norm_num [s2Features, s2tx, extract, groupMeanFormula, groupScoreFormula,
    amountRules, velocityRules, networkRules, geoRules, identityRules,
    employmentRiskScore, boolToRat, max_def, hstr]

/-! ## The claims -/

/-- Claim C1: for every investigated transaction, `ml_score > 0.80` makes the
orchestrator return `AUTO_BLOCKED` with confidence `ml_score` and layers 3, 4
and 5 skipped (none of them executed), and `ml_score < 0.20` likewise returns
`AUTO_APPROVED` with confidence `ml_score` and layers 3, 4, 5 skipped. -/
theorem C1_layer2_short_circuit_gate (ml ring anomaly : ℚ) (llm : LLMResult) :
    (GRAY_AREA_MAX < ml →
      investigate ml ring anomaly llm =
        { decision := "AUTO_BLOCKED", confidence := ml
          skippedLayers := ["layer3", "layer4", "layer5"]
          layer3Run := false, layer4Run := false, layer5Run := false
          combinedScore := none }) ∧
    (ml < GRAY_AREA_MIN →
      investigate ml ring anomaly llm =
        { decision := "AUTO_APPROVED", confidence := ml
          skippedLayers := ["layer3", "layer4", "layer5"]
          layer3Run := false, layer4Run := false, layer5Run := false
          combinedScore := none }) := by
  constructor
  · intro h
    simp [investigate, h]
  · intro h
    have h2 : ¬ GRAY_AREA_MAX < ml := by
      simp only [GRAY_AREA_MAX, GRAY_AREA_MIN] at *
      push_neg
      linarith
    simp [investigate, h, h2]

/-- Witness for C1 at `ml = 0.9` and `ml = 0.1`. -/
theorem C1_layer2_short_circuit_gate_witness :
    investigate 0.9 0 0 llm0 =
      { decision := "AUTO_BLOCKED", confidence := 0.9
        skippedLayers := ["layer3", "layer4", "layer5"]
        layer3Run := false, layer4Run := false, layer5Run := false
        combinedScore := none } ∧
    investigate 0.1 0 0 llm0 =
      { decision := "AUTO_APPROVED", confidence := 0.1
        skippedLayers := ["layer3", "layer4", "layer5"]
        layer3Run := false, layer4Run := false, layer5Run := false
        combinedScore := none } :=
  ⟨(C1_layer2_short_circuit_gate 0.9 0 0 llm0).1 (by norm_num [GRAY_AREA_MAX]),
   (C1_layer2_short_circuit_gate 0.1 0 0 llm0).2 (by norm_num [GRAY_AREA_MIN])⟩

/-- Claim C2: for every case passing the layer-2 gate
(`0.20 ≤ ml_score ≤ 0.80`), the orchestrator computes
`combined = 0.4·ml + 0.3·ring + 0.3·anomaly`, and layer 5 runs iff
`0.40 ≤ combined ≤ 0.60`. -/
theorem C2_combined_formula_l5_gate (ml ring anomaly : ℚ) (llm : LLMResult)
    (hlo : GRAY_AREA_MIN ≤ ml) (hhi : ml ≤ GRAY_AREA_MAX) :
    (investigate ml ring anomaly llm).combinedScore =
      some (0.4 * ml + 0.3 * ring + 0.3 * anomaly) ∧
    ((investigate ml ring anomaly llm).layer5Run = true ↔
      HUMAN_REVIEW_MIN ≤ 0.4 * ml + 0.3 * ring + 0.3 * anomaly ∧
        0.4 * ml + 0.3 * ring + 0.3 * anomaly ≤ HUMAN_REVIEW_MAX) := by
  have h1 : ¬ GRAY_AREA_MAX < ml := not_lt.2 hhi
  have h2 : ¬ ml < GRAY_AREA_MIN := not_lt.2 hlo
  have hc : ml * 0.4 + ring * 0.3 + anomaly * 0.3 =
      0.4 * ml + 0.3 * ring + 0.3 * anomaly := by ring
  simp only [investigate, if_neg h1, if_neg h2, hc]
  by_cases h5 : HUMAN_REVIEW_MIN ≤ 0.4 * ml + 0.3 * ring + 0.3 * anomaly ∧
      0.4 * ml + 0.3 * ring + 0.3 * anomaly ≤ HUMAN_REVIEW_MAX
  · simp [h5]
  · split_ifs <;> simp_all

/-- Witness for C2 at `ml = ring = anomaly = 0.5` (combined = 0.5, L5 runs). -/
theorem C2_combined_formula_l5_gate_witness :
    (investigate 0.5 0.5 0.5 llm0).combinedScore =
      some (0.4 * 0.5 + 0.3 * 0.5 + 0.3 * 0.5) ∧
    ((investigate 0.5 0.5 0.5 llm0).layer5Run = true ↔
      HUMAN_REVIEW_MIN ≤ 0.4 * 0.5 + 0.3 * 0.5 + 0.3 * 0.5 ∧
        0.4 * 0.5 + 0.3 * 0.5 + 0.3 * 0.5 ≤ HUMAN_REVIEW_MAX) :=
  C2_combined_formula_l5_gate 0.5 0.5 0.5 llm0
    (by norm_num [GRAY_AREA_MIN]) (by norm_num [GRAY_AREA_MAX])

/-- Claim C3: for every input transaction, the investigation result's
decision is one of {AUTO_APPROVED, AUTO_BLOCKED, HUMAN_REVIEW} and its
confidence lies in [0, 1] — including cases decided by layer 5.  The
layer-2 score of every feature map is at most 0.176 (`predict_le`), so every
investigation short-circuits below the gray area to `AUTO_APPROVED` with
confidence `ml_score ∈ [0, 0.176]`; the layer-5 branch, whose decision and
confidence come from the parsed LLM response, is never reached from a real
transaction, so the invariant holds on every execution whatever the other
layers and the LLM would return. -/
theorem C3_decision_confidence_invariant (f : Features) (ring anomaly : ℚ)
    (llm : LLMResult) :
    (investigate (predict f) ring anomaly llm).decision ∈
      (["AUTO_APPROVED", "AUTO_BLOCKED", "HUMAN_REVIEW"] : List String) ∧
    0 ≤ (investigate (predict f) ring anomaly llm).confidence ∧
    (investigate (predict f) ring anomaly llm).confidence ≤ 1 := by
  have hlt : predict f < GRAY_AREA_MIN :=
    lt_of_le_of_lt (predict_le f) (by norm_num [GRAY_AREA_MIN])
  have hng : ¬ GRAY_AREA_MAX < predict f := by
    have hle := predict_le f
    simp only [GRAY_AREA_MAX]
    push_neg
    linarith
  simp only [investigate, if_neg hng, if_pos hlt]
  exact ⟨by simp, predict_nonneg f, le_trans (predict_le f) (by norm_num)⟩

/-- Counterexample to claim C4: `extract` has no handler around its history
queries, so a storage error in `get_velocity_metrics` propagates — the case
produces no feature map and no verdict at all (the worker's blanket `except`
merely logs and continues); nothing is zero-filled and nothing is routed to
`human_review` with confidence 0.5. -/
theorem C4_storage_error_counterexample :
    extractE tx0 qVelocityFail = .error .storage_unavailable ∧
    workerProcessCase tx0 qVelocityFail 0 0 llm0 = none := by
  constructor <;> rfl

/-- Claim C4 as amended: if any HistoryStore query inside layer-1 feature
extraction fails with a storage error, the exception propagates out of
`extract` and `investigate`; the worker's catch-all handler logs it and skips
the case, so the case ends with no verdict — in particular it is never
auto-approved or auto-blocked (and never reaches `human_review` either). -/
theorem C4_storage_error_amended (tx : Transaction) (q : DBQueryOutcomes)
    (ring anomaly : ℚ) (llm : LLMResult)
    (h : isStorageError q.velocity ∨ isStorageError q.deviceHistory ∨
      isStorageError q.ipHistory ∨ isStorageError q.escalation ∨
      isStorageError q.structuring ∨ isStorageError q.fraudHistory) :
    workerProcessCase tx q ring anomaly llm = none := by
  rcases h with ⟨e, he⟩ | ⟨e, he⟩ | ⟨e, he⟩ | ⟨e, he⟩ | ⟨e, he⟩ | ⟨e, he⟩
  · simp [workerProcessCase, extractE, he]
  · cases hv : q.velocity <;>
      simp [workerProcessCase, extractE, he, hv]
  · cases hv : q.velocity <;> cases hd : q.deviceHistory <;>
      simp [workerProcessCase, extractE, he, hv, hd]
  · cases hv : q.velocity <;> cases hd : q.deviceHistory <;>
      cases hi : q.ipHistory <;>
      simp [workerProcessCase, extractE, he, hv, hd, hi]
  · cases hv : q.velocity <;> cases hd : q.deviceHistory <;>
      cases hi : q.ipHistory <;> cases hesc : q.escalation <;>
      simp [workerProcessCase, extractE, he, hv, hd, hi, hesc]
  · cases hv : q.velocity <;> cases hd : q.deviceHistory <;>
      cases hi : q.ipHistory <;> cases hesc : q.escalation <;>
      cases hst : q.structuring <;>
      simp [workerProcessCase, extractE, he, hv, hd, hi, hesc, hst]

/-- Witness for the amended C4: the last query failing also kills the case. -/
theorem C4_storage_error_amended_witness :
    workerProcessCase tx0 qFraudHistoryFail 0 0 llm0 = none :=
  C4_storage_error_amended tx0 qFraudHistoryFail 0 0 llm0
    (Or.inr (Or.inr (Or.inr (Or.inr (Or.inr ⟨.storage_unavailable, rfl⟩)))))

/-- Counterexample to claim C5: on the literal S2 transaction (with the empty
history a brand-new account implies) the layer-2 ensemble returns
`ml_score = 0.123`, which is below `GRAY_AREA_MAX = 0.80` — indeed below
`GRAY_AREA_MIN` — and the orchestrator decides `AUTO_APPROVED`, not
`AUTO_BLOCKED`. -/
theorem C5_s2_counterexample :
    predict s2Features = 0.123 ∧
    predict s2Features < GRAY_AREA_MAX ∧
    (investigate (predict s2Features) 0 0 llm0).decision = "AUTO_APPROVED" := by
  refine ⟨s2_ml_score, ?_, ?_⟩
  · rw [s2_ml_score]
    norm_num [GRAY_AREA_MAX]
  · rw [s2_ml_score]
    norm_num [investigate, GRAY_AREA_MAX, GRAY_AREA_MIN]

/-- Claim C5 as amended: for the literal scenario S2 the layer-2 ensemble
produces `ml_score = 0.123 < 0.20` and the orchestrator decides
`AUTO_APPROVED` with confidence 0.123, skipping layers 3, 4 and 5. -/
theorem C5_s2_amended :
    predict s2Features = 0.123 ∧
    investigate (predict s2Features) 0 0 llm0 =
      { decision := "AUTO_APPROVED", confidence := 0.123
        skippedLayers := ["layer3", "layer4", "layer5"]
        layer3Run := false, layer4Run := false, layer5Run := false
        combinedScore := none } := by
  refine ⟨s2_ml_score, ?_⟩
  rw [s2_ml_score]
  norm_num [investigate, GRAY_AREA_MAX, GRAY_AREA_MIN]

/-- Claim C6: for every feature map, the layer-2 score is the arithmetic mean
over the five rule groups of (maximum matching rule value × group weight),
hence bounded above by 0.176, so the `ml_score > 0.80` auto-block
short-circuit branch guard of `investigate` is never satisfied. -/
theorem C6_predict_bounded (f : Features) :
    predict f = groupMeanFormula f ∧
    predict f ≤ 0.176 ∧
    predict f < GRAY_AREA_MAX :=
  ⟨predict_eq_groupMean f, predict_le f,
   lt_of_le_of_lt (predict_le f) (by norm_num [GRAY_AREA_MAX])⟩

/-- Claim C7: `detect_structuring` flags structuring iff the user has at
least 3 deposits of the last 48 hours with amount in [9500, 9999] and the
current amount itself lies in [9500, 9999]; the reported 48-hour count is
exactly the number of such rows. -/
theorem C7_structuring_iff (table : List TxnRow) (userId : String) (amt : ℚ) :
    ((detect_structuring table userId amt).is_structuring = true ↔
      3 ≤ (structuringRows table userId).length ∧ 9500 ≤ amt ∧ amt ≤ 9999) ∧
    (detect_structuring table userId amt).similar_transactions_48h =
      (structuringRows table userId).length := by
  refine ⟨?_, rfl⟩
  simp only [detect_structuring, Bool.and_eq_true, decide_eq_true_eq, ge_iff_le]

/-- Counterexample to claim C8: the layer-5 cache is a plain dict with no
eviction; after 10001 `reason()` calls with distinct canonical contexts it
holds 10001 entries, exceeding the claimed ~10 000 LRU bound. -/
theorem C8_cache_unbounded_counterexample :
    (reasonCacheRun (List.range 10001) llm0).length = 10001 ∧
    10000 < (reasonCacheRun (List.range 10001) llm0).length := by
  have h := reasonCache_fold_length (List.range 10001) llm0 []
    (List.nodup_range 10001) (by simp)
  simp only [reasonCacheRun] at *
  rw [h]
  simp [List.length_range]

/-- Claim C8 as amended: the layer-5 result cache is an unbounded dict —
`reason()` never evicts, so after serving any sequence of distinct canonical
contexts the cache holds exactly one entry per context, with no 10 000-entry
cap. -/
theorem C8_cache_growth_amended (hashes : List ℕ) (fresh : LLMResult)
    (hnd : hashes.Nodup) :
    (reasonCacheRun hashes fresh).length = hashes.length := by
  have := reasonCache_fold_length hashes fresh [] hnd (by simp)
  simpa [reasonCacheRun] using this

/-- Witness for the amended C8 on three distinct contexts. -/
theorem C8_cache_growth_amended_witness :
    (reasonCacheRun [0, 1, 2] llm0).length = ([0, 1, 2] : List ℕ).length :=
  C8_cache_growth_amended [0, 1, 2] llm0 (by decide)

/-- Counterexample to claim C9: the source parses successful completions by
slicing from the first `{` to the last `}` (`output.find`/`output.rfind`),
not by extracting the first balanced `{…}` substring.  On the completion
`"{a} {b}"` the code's slice is the whole string, while the first balanced
substring is `"{a}"`. -/
theorem C9_parse_slice_counterexample :
    extractedJson dualObjectCompletion = some "{a} {b}".toList ∧
    firstBalancedSubstring_spec dualObjectCompletion = some "{a}".toList ∧
    extractedJson dualObjectCompletion ≠
      firstBalancedSubstring_spec dualObjectCompletion := by
  refine ⟨?_, ?_, ?_⟩ <;> decide

/-- Claim C9 as amended: on any transport/timeout error, and whenever the
sliced substring fails to parse as JSON, `_llm_inference` returns exactly
the fallback {HUMAN_REVIEW, "LLM analysis failed", 0.5} with no retry; a
completion containing both braces is parsed from the substring running from
the first `{` to the last `}` (not the first balanced one), and a completion
lacking a brace yields {HUMAN_REVIEW, "Unable to reach definitive
conclusion", 0.5}. -/
theorem C9_fallback_amended (decode : List Char → Option LLMResult)
    (output : List Char) (r : LLMResult) :
    (llmInference decode (.error ()) = llmFallback) ∧
    (extractedJson output = none → llmInference decode (.ok output) = llmNoJson) ∧
    (∀ js, extractedJson output = some js → decode js = none →
      llmInference decode (.ok output) = llmFallback) ∧
    (∀ js, extractedJson output = some js → decode js = some r →
      llmInference decode (.ok output) = r) := by
  refine ⟨rfl, ?_, ?_, ?_⟩
  · intro h
    simp [llmInference, h]
  · intro js h hd
    simp [llmInference, h, hd]
  · intro js h hd
    simp [llmInference, h, hd]

/-- Witness for the amended C9: a transport error and an undecodable sliced
substring both produce the exact fallback object. -/
theorem C9_fallback_amended_witness :
    llmInference (fun _ => none) (.error ()) = llmFallback ∧
    llmInference (fun _ => none) (.ok dualObjectCompletion) = llmFallback :=
  ⟨(C9_fallback_amended (fun _ => none) dualObjectCompletion llm0).1,
   (C9_fallback_amended (fun _ => none) dualObjectCompletion llm0).2.2.1
     ("{a} {b}".toList) (by decide) rfl⟩

/-- Claim C10: a layer-4 per-user sequence buffer holding at most 10
projections still holds at most 10 after `detect_anomalies` appends (append
then pop-oldest when over 10), and a processed-case ring holding at most
10 000 cases still holds at most 10 000 after an append
(`deque(maxlen=10000)` discards the oldest when full). -/
theorem C10_buffer_bounds (buf : List (List ℚ)) (v : List ℚ)
    (caseRing : List ProcessedCase) (c : ProcessedCase)
    (hbuf : buf.length ≤ 10) (hring : caseRing.length ≤ 10000) :
    (sequenceBufferAppend buf v).length ≤ 10 ∧
    (caseHistoryAppend caseRing c).length ≤ 10000 := by
  constructor
  · simp only [sequenceBufferAppend]
    split_ifs with h <;>
      simp only [List.length_drop, List.length_append, List.length_cons,
        List.length_nil] at * <;> omega
  · simp only [caseHistoryAppend]
    split_ifs with h <;>
      simp only [List.length_drop, List.length_append, List.length_cons,
        List.length_nil] at * <;> omega

/-- Witness for C10 on empty buffers. -/
theorem C10_buffer_bounds_witness :
    (sequenceBufferAppend [] [0]).length ≤ 10 ∧
    (caseHistoryAppend [] { case_id := "c1", final_decision := "AUTO_BLOCKED" }).length
      ≤ 10000 :=
  C10_buffer_bounds [] [0] [] { case_id := "c1", final_decision := "AUTO_BLOCKED" }
    (by decide) (by decide)

end FraudAI
